import Mathlib

/-!
Shallow embedding of the monad-selector library (maybe.ts, result.ts,
maybe-selector.ts, result-selector.ts) and proofs of its specified laws.

Containers are modelled as inductive data carrying the variant tag and
payload; each container operation is a Lean function whose per-variant
equation is the closure stored in the corresponding object literal of the
source. JavaScript exceptions are modelled with Except, whose error side
holds the thrown JS value.
-/

namespace MonadSelector

/-- JavaScript runtime values, as far as this library inspects them:
the two absence sentinels, primitives, and Error objects (a TypeError is
itself an Error, so it carries a flag rather than being a separate case). -/
inductive JVal : Type where
  | undef : JVal
  | jsNull : JVal
  | jsBool (b : Bool) : JVal
  | num (n : Int) : JVal
  | str (s : String) : JVal
  | error (isTypeError : Bool) (msg : String) : JVal
  deriving Repr, DecidableEq

/-- Translation of the JS test `a instanceof Error`; TypeError instances
are Error instances, so both error kinds satisfy it. -/
def isErrorObj : JVal → Bool
  | .error _ _ => true
  | _ => false

/-- The optional container of maybe.ts: variant tag `isNothing` with a
payload on the Just variant. -/
inductive JMaybe : Type where
  | nothing : JMaybe
  | just (a : JVal) : JMaybe
  deriving Repr, DecidableEq

/-- The `isNothing` discriminant field of a Maybe object. -/
def JMaybe.isNothing : JMaybe → Bool
  | .nothing => true
  | .just _ => false

/-- The `value` field of a Maybe object: `undefined` on Nothing, the
wrapped value on Just. -/
def JMaybe.value : JMaybe → JVal
  | .nothing => JVal.undef
  | .just a => a

/-- The exported function `Nothing()`: builds the absent container. -/
def Nothing : JMaybe := JMaybe.nothing

/-- The exported function `Just(a)` (maybe.ts): throws a TypeError when
`a === undefined || a === null`, otherwise builds the present container
wrapping `a`. The thrown value is modelled on the error side of Except. -/
def Just (a : JVal) : Except JVal JMaybe :=
  if a = JVal.undef ∨ a = JVal.jsNull then
    Except.error (JVal.error true
      "invalid argument provided to Just: undefined and null values are not allowed")
  else
    Except.ok (JMaybe.just a)

/-- The exported smart constructor `Maybe(a)` (maybe.ts):
`a === undefined || a === null ? Nothing() : Just(a)`. In the else branch
the source calls `Just(a)`, which cannot throw there because the guard has
excluded both sentinels, so the embedding returns the Just object directly. -/
def Maybe (a : JVal) : JMaybe :=
  if a = JVal.undef ∨ a = JVal.jsNull then Nothing else JMaybe.just a

/-- The `flatMap` closures: Nothing stores `() => Nothing()`, Just stores
`f => f(a)`. -/
def JMaybe.flatMap : JMaybe → (JVal → JMaybe) → JMaybe
  | .nothing, _ => Nothing
  | .just a, f => f a

/-- The `map` closures: Nothing stores `() => Nothing()`, Just stores
`f => Maybe(f(a))` — re-running smart construction on the callback result. -/
def JMaybe.map : JMaybe → (JVal → JVal) → JMaybe
  | .nothing, _ => Nothing
  | .just a, f => Maybe (f a)

/-- The `get` closures: Nothing stores
`() => { throw new TypeError("value is undefined"); }`, Just stores
`() => a`. -/
def JMaybe.get : JMaybe → Except JVal JVal
  | .nothing => Except.error (JVal.error true "value is undefined")
  | .just a => Except.ok a

/-- The `join` closures: Nothing stores `f => f()`, Just stores
`(_, f) => f(a)`. -/
def JMaybe.join {B : Type} : JMaybe → (Unit → B) → (JVal → B) → B
  | .nothing, f1, _ => f1 ()
  | .just a, _, f2 => f2 a

/-- The Result container of result.ts: variant tag `isOk` with a payload
on each variant (the Err payload is the wrapped Error object). -/
inductive JResult : Type where
  | err (e : JVal) : JResult
  | ok (a : JVal) : JResult
  deriving Repr, DecidableEq

/-- The `isOk` discriminant field of a Result object. -/
def JResult.isOk : JResult → Bool
  | .err _ => false
  | .ok _ => true

/-- The `value` field of a Result object: the wrapped error on Err, the
wrapped value on Ok. -/
def JResult.value : JResult → JVal
  | .err e => e
  | .ok a => a

/-- The exported function `Err(e)` (result.ts): throws a TypeError when
`!(e instanceof Error)`, otherwise builds the Err container wrapping `e`. -/
def Err (e : JVal) : Except JVal JResult :=
  if !isErrorObj e then
    Except.error (JVal.error true
      "invalid argument provided to Err: only Error values are allowed")
  else
    Except.ok (JResult.err e)

/-- The exported function `Ok(a)` (result.ts): throws a TypeError when
`a instanceof Error`, otherwise builds the Ok container wrapping `a`. -/
def Ok (a : JVal) : Except JVal JResult :=
  if isErrorObj a then
    Except.error (JVal.error true
      "invalid argument provided to Ok: Error values are not allowed")
  else
    Except.ok (JResult.ok a)

/-- The exported smart constructor `Result(a)` (result.ts):
`a instanceof Error ? Err(a) : Ok(a)`. Neither direct constructor can throw
under its guard, so the embedding returns the containers directly. -/
def Result (a : JVal) : JResult :=
  if isErrorObj a then JResult.err a else JResult.ok a

/-- The `flatMap` closures: Err stores `() => Err(e)` (rebuilding the Err
container around the same error, which cannot throw since `e` is an Error),
Ok stores `f => f(a)`. -/
def JResult.flatMap : JResult → (JVal → JResult) → JResult
  | .err e, _ => .err e
  | .ok a, f => f a

/-- The `map` closures: Err stores `() => Err(e)`, Ok stores
`f => Result(f(a))` — re-running smart construction on the callback result. -/
def JResult.map : JResult → (JVal → JVal) → JResult
  | .err e, _ => .err e
  | .ok a, f => Result (f a)

/-- The `get` closures: Err stores `() => { throw e; }` — propagating the
wrapped error object itself — and Ok stores `() => a`. -/
def JResult.get : JResult → Except JVal JVal
  | .err e => Except.error e
  | .ok a => Except.ok a

/-- The `getError` closures: Err stores `() => e`, Ok stores
`() => undefined`. -/
def JResult.getError : JResult → JVal
  | .err e => e
  | .ok _ => JVal.undef

/-- The `getValue` closures: Err stores `() => undefined`, Ok stores
`() => a`. -/
def JResult.getValue : JResult → JVal
  | .err _ => JVal.undef
  | .ok a => a

/-- The `join` closures: Err stores `f => f(e)`, Ok stores `(_, f) => f(a)`. -/
def JResult.join {B : Type} : JResult → (JVal → B) → (JVal → B) → B
  | .err e, fe, _ => fe e
  | .ok a, _, fa => fa a

/-- Second argument of a MaybeSelector wrapper: either a raw JS value
(including `undefined` when the argument is omitted) or an object that the
type-test predicate `isMaybe` recognizes as a container. Raw values in this
embedding never carry an `isNothing` field. -/
inductive MaybeArg : Type where
  | raw (v : JVal) : MaybeArg
  | cont (m : JMaybe) : MaybeArg

/-- The type predicate `isMaybe(a)` (maybe.ts): evaluates
`a.isNothing !== undefined`. In JS, reading the `isNothing` property off
null or undefined itself throws a TypeError, so the predicate fails on
those arguments; any other raw value lacks the field (the read gives
undefined), so the test is false; containers carry the field, so it is
true. The thrown message text is engine-dependent and no statement relies
on it. -/
def isMaybe : MaybeArg → Except JVal Bool
  | .raw JVal.jsNull =>
    Except.error (JVal.error true
      "Cannot read properties of null (reading isNothing)")
  | .raw JVal.undef =>
    Except.error (JVal.error true
      "Cannot read properties of undefined (reading isNothing)")
  | .raw _ => Except.ok false
  | .cont _ => Except.ok true

/-- Tests that a call outcome is a thrown TypeError, of whatever message. -/
def throwsTypeError {A : Type} : Except JVal A → Bool
  | Except.error (JVal.error true _) => true
  | _ => false

/-- Second argument of a ResultSelector wrapper: a raw JS value (possibly
an Error or `undefined`) or an object recognized by `isResult`. -/
inductive ResultArg : Type where
  | raw (v : JVal) : ResultArg
  | cont (m : JResult) : ResultArg

/-- The type predicate `isResult(a)` (result.ts): evaluates
`a.isOk !== undefined`. In JS the property read throws a TypeError on a
null or undefined argument, just as for `isMaybe`; the Result-selector
wrapper only reaches it on non-undefined arguments, and no claim settled
on that wrapper involves a raw null argument, so this embedding keeps the
predicate total — false on raw values, true on containers. -/
def isResult : ResultArg → Bool
  | .raw _ => false
  | .cont _ => true

/-- Resolution step of the MaybeSelector wrapper (maybe-selector.ts):
`r === undefined` yields `Nothing()`; otherwise `isMaybe(r)` is evaluated,
and on a raw null argument that property read itself throws a TypeError,
failing the call before any constructor runs; an argument the predicate
recognizes as a container is used as-is; any remaining raw value is
wrapped with the direct constructor `Just(r)` — not smart construction. -/
def resolveMaybeArg : MaybeArg → Except JVal JMaybe
  | .cont m => Except.ok m
  | .raw v =>
    if v = JVal.undef then Except.ok Nothing
    else
      match isMaybe (MaybeArg.raw v) with
      | Except.error ex => Except.error ex
      | Except.ok _ => Just v

/-- The object returned by a selector wrapper,
`{ ...result, ...selectorFactory(s, result) }`: the container's fields
(tag, payload and operation closures) merged with the factory's accessor
keys. The factory's keys are the extra component; as in the library's
intersection typing they are taken disjoint from the container's own field
names, so the spread copies every container field unchanged. -/
structure MergedMaybe (S : Type) : Type where
  container : JMaybe
  extra : S

/-- The wrapper produced by `MaybeSelector(selectorFactory)`
(maybe-selector.ts): resolve the second argument, then spread the resolved
container together with `selectorFactory(s, result)`. A TypeError thrown
during resolution propagates to the caller. -/
def MaybeSelector {State S : Type} (selectorFactory : State → JMaybe → S)
    (s : State) (r : MaybeArg) : Except JVal (MergedMaybe S) :=
  match resolveMaybeArg r with
  | Except.error ex => Except.error ex
  | Except.ok result => Except.ok ⟨result, selectorFactory s result⟩

/-- Resolution step of the ResultSelector wrapper (result-selector.ts):
`r === undefined` yields `Err(new Error("result is undefined"))` (a plain
Error, and `Err` cannot throw on it); an argument satisfying `isResult` is
used as-is; any other raw value is wrapped with the smart constructor
`Result(r)`. In the source a raw null argument makes `isResult` throw a
TypeError before `Result` runs; no claim settled on this resolution
involves that input, and the embedding keeps this function total there,
following its total `isResult`. -/
def resolveResultArg : ResultArg → JResult
  | .raw v =>
    if v = JVal.undef then JResult.err (JVal.error false "result is undefined")
    else Result v
  | .cont m => m

/-- The merged object returned by a ResultSelector wrapper, as MergedMaybe. -/
structure MergedResult (S : Type) : Type where
  container : JResult
  extra : S

/-- The wrapper produced by `ResultSelector(selectorFactory)`
(result-selector.ts): resolve the second argument — always succeeding —
then spread the resolved container together with
`selectorFactory(s, result)`. -/
def ResultSelector {State S : Type} (selectorFactory : State → JResult → S)
    (s : State) (r : ResultArg) : MergedResult S :=
  let result := resolveResultArg r
  ⟨result, selectorFactory s result⟩

/-- The `map` field of the merged object: the spread copied the resolved
container's `map` closure, whose result is a plain container built by
smart construction — it carries none of the factory's extra keys. -/
def MergedMaybe.map {S : Type} (m : MergedMaybe S) (f : JVal → JVal) : JMaybe :=
  m.container.map f

/-- The `flatMap` field of the merged object, copied from the container. -/
def MergedMaybe.flatMap {S : Type} (m : MergedMaybe S) (f : JVal → JMaybe) : JMaybe :=
  m.container.flatMap f

/-- The `join` field of the merged object, copied from the container. -/
def MergedMaybe.join {B S : Type} (m : MergedMaybe S) (f1 : Unit → B)
    (f2 : JVal → B) : B :=
  m.container.join f1 f2

/-- The `map` field of the merged Result object, copied from the container;
its result is a plain container without the factory's extra keys. -/
def MergedResult.map {S : Type} (m : MergedResult S) (f : JVal → JVal) : JResult :=
  m.container.map f

/-- The `flatMap` field of the merged Result object, copied from the
container. -/
def MergedResult.flatMap {S : Type} (m : MergedResult S) (f : JVal → JResult) : JResult :=
  m.container.flatMap f

/-- The `get` field of the merged Result object, copied from the container. -/
def MergedResult.get {S : Type} (m : MergedResult S) : Except JVal JVal :=
  m.container.get

/-- The `join` field of the merged Result object, copied from the container. -/
def MergedResult.join {B S : Type} (m : MergedResult S) (fe : JVal → B)
    (fa : JVal → B) : B :=
  m.container.join fe fa

/-- C1: for every present/Ok container, map re-runs smart construction on
the callback result: if present(x) is built and f maps x to undefined or
null, map yields the absent variant (never a present variant wrapping the
sentinel), and if ok(y) is built and g maps y to an Error object, map
yields Err of that error (never an Ok wrapping it). -/
theorem map_revalidates_collapse (x y : JVal) (m : JMaybe) (rm : JResult)
    (f g : JVal → JVal)
    (hm : Just x = Except.ok m) (hf : f x = JVal.undef ∨ f x = JVal.jsNull)
    (hr : Ok y = Except.ok rm) (hg : isErrorObj (g y) = true) :
    m.map f = JMaybe.nothing ∧ rm.map g = JResult.err (g y) := by
  unfold Just at hm
  split at hm
  · cases hm
  · cases hm
    unfold Ok at hr
    split at hr
    · cases hr
    · cases hr
      constructor
      · simp [JMaybe.map, Maybe, Nothing, hf]
      · simp [JResult.map, Result, hg]

/-- Witness for C1 at x = 1 with f constantly undefined, and y = 2 with g
constantly a fresh Error. -/
theorem map_revalidates_collapse_witness :
    JMaybe.map (JMaybe.just (JVal.num 1)) (fun _ => JVal.undef)
      = JMaybe.nothing ∧
    JResult.map (JResult.ok (JVal.num 2)) (fun _ => JVal.error false "e")
      = JResult.err (JVal.error false "e") :=
  map_revalidates_collapse (JVal.num 1) (JVal.num 2)
    (JMaybe.just (JVal.num 1)) (JResult.ok (JVal.num 2))
    (fun _ => JVal.undef) (fun _ => JVal.error false "e")
    rfl (Or.inl rfl) rfl rfl

/-- C2 counterexample: invoking the optional-selector wrapper with the raw
value null does not resolve to fromValue(null), the absent container; the
call fails with a thrown TypeError — in the source the property read
inside isMaybe(null) already throws before any constructor runs — so the
wrapper neither succeeds on null nor resolves it the way fromValue would. -/
theorem maybe_selector_null_counterexample :
    resolveMaybeArg (MaybeArg.raw JVal.jsNull)
      ≠ Except.ok (Maybe JVal.jsNull) ∧
    throwsTypeError (resolveMaybeArg (MaybeArg.raw JVal.jsNull)) = true ∧
    Maybe JVal.jsNull = JMaybe.nothing ∧
    throwsTypeError (MaybeSelector (fun (_ : Unit) (_ : JMaybe) => ()) ()
      (MaybeArg.raw JVal.jsNull)) = true := by
  refine ⟨?_, rfl, rfl, rfl⟩
  intro h
  exact Except.noConfusion h

/-- C2 amended: when the wrapper is invoked with a raw non-container
argument that is neither undefined nor null, the resolved container equals
fromValue of that value; invoked with a raw null argument the wrapper does
not succeed — the call throws a TypeError, raised when isMaybe reads the
variant-tag field off null — instead of resolving to the absent container. -/
theorem maybe_selector_raw_matches_fromValue (v : JVal)
    (hu : v ≠ JVal.undef) (hn : v ≠ JVal.jsNull) :
    resolveMaybeArg (MaybeArg.raw v) = Except.ok (Maybe v) ∧
    throwsTypeError (resolveMaybeArg (MaybeArg.raw JVal.jsNull)) = true := by
  refine ⟨?_, rfl⟩
  cases v with
  | undef => exact absurd rfl hu
  | jsNull => exact absurd rfl hn
  | jsBool b => simp [resolveMaybeArg, isMaybe, Just, Maybe, Nothing]
  | num n => simp [resolveMaybeArg, isMaybe, Just, Maybe, Nothing]
  | str s => simp [resolveMaybeArg, isMaybe, Just, Maybe, Nothing]
  | error k m => simp [resolveMaybeArg, isMaybe, Just, Maybe, Nothing]

/-- Witness for the amended C2 at the raw string value "a". -/
theorem maybe_selector_raw_matches_fromValue_witness :
    resolveMaybeArg (MaybeArg.raw (JVal.str "a"))
      = Except.ok (Maybe (JVal.str "a")) :=
  (maybe_selector_raw_matches_fromValue (JVal.str "a")
    (by decide) (by decide)).1

/-- C3: map short-circuits on the empty variants: on Nothing it returns
the absent container, on Err(e) it returns an Err wrapping the same error
object, and in both cases the result does not depend on the callback —
map(f) = map(g) for all f and g, so the callback is never consulted. -/
theorem map_short_circuit (e : JVal) (f g : JVal → JVal)
    (he : isErrorObj e = true) :
    JMaybe.map JMaybe.nothing f = JMaybe.nothing ∧
    JMaybe.map JMaybe.nothing f = JMaybe.map JMaybe.nothing g ∧
    JResult.map (JResult.err e) f = JResult.err e ∧
    JResult.map (JResult.err e) f = JResult.map (JResult.err e) g :=
  ⟨rfl, rfl, rfl, rfl⟩

/-- Witness for C3 at the error "fail" with two different callbacks. -/
theorem map_short_circuit_witness :
    JMaybe.map JMaybe.nothing (fun v => v) = JMaybe.nothing ∧
    JMaybe.map JMaybe.nothing (fun v => v)
      = JMaybe.map JMaybe.nothing (fun _ => JVal.num 0) ∧
    JResult.map (JResult.err (JVal.error false "fail")) (fun v => v)
      = JResult.err (JVal.error false "fail") ∧
    JResult.map (JResult.err (JVal.error false "fail")) (fun v => v)
      = JResult.map (JResult.err (JVal.error false "fail"))
          (fun _ => JVal.num 0) :=
  map_short_circuit (JVal.error false "fail") (fun v => v)
    (fun _ => JVal.num 0) rfl

/-- C4: get() by variant: on a constructed present(x) it returns x; on the
absent container it throws the TypeError "value is undefined"; on a
constructed ok(y) it returns y; on a constructed Err(e) it throws the
wrapped error object e itself. -/
theorem get_by_variant (x y e : JVal) (mx : JMaybe) (ry re : JResult)
    (hx : Just x = Except.ok mx) (hy : Ok y = Except.ok ry)
    (he : Err e = Except.ok re) :
    mx.get = Except.ok x ∧
    JMaybe.get JMaybe.nothing
      = Except.error (JVal.error true "value is undefined") ∧
    ry.get = Except.ok y ∧
    re.get = Except.error e := by
  unfold Just at hx
  unfold Ok at hy
  unfold Err at he
  split at hx
  · cases hx
  · cases hx
    split at hy
    · cases hy
    · cases hy
      split at he
      · cases he
      · cases he
        exact ⟨rfl, rfl, rfl, rfl⟩

/-- Witness for C4 at x = "a", y = 1 and e = Error("fail"). -/
theorem get_by_variant_witness :
    JMaybe.get (JMaybe.just (JVal.str "a")) = Except.ok (JVal.str "a") ∧
    JMaybe.get JMaybe.nothing
      = Except.error (JVal.error true "value is undefined") ∧
    JResult.get (JResult.ok (JVal.num 1)) = Except.ok (JVal.num 1) ∧
    JResult.get (JResult.err (JVal.error false "fail"))
      = Except.error (JVal.error false "fail") :=
  get_by_variant (JVal.str "a") (JVal.num 1) (JVal.error false "fail")
    (JMaybe.just (JVal.str "a")) (JResult.ok (JVal.num 1))
    (JResult.err (JVal.error false "fail")) rfl rfl rfl

/-- C5: for every state and factory, the Result-selector wrapper invoked
with an undefined result argument produces an Err container (not an
absent-equivalent) wrapping a newly constructed plain Error with message
exactly "result is undefined", merged with the factory's keys, and get()
on it throws that error. -/
theorem result_selector_undefined_is_err_literal {State S : Type}
    (F : State → JResult → S) (s : State) :
    (ResultSelector F s (ResultArg.raw JVal.undef)).container
      = JResult.err (JVal.error false "result is undefined") ∧
    (ResultSelector F s (ResultArg.raw JVal.undef)).container.isOk
      = false ∧
    (ResultSelector F s (ResultArg.raw JVal.undef)).extra
      = F s (JResult.err (JVal.error false "result is undefined")) ∧
    (ResultSelector F s (ResultArg.raw JVal.undef)).get
      = Except.error (JVal.error false "result is undefined") :=
  ⟨rfl, rfl, rfl, rfl⟩

/-- C6: the Result smart constructor routes on error-ness only: an error
input yields Err of that input, a non-error input yields Ok of it, and in
particular null and undefined become Ok payloads — unlike the optional
container's smart constructor, which collapses both to absent. -/
theorem result_fromValue_routes_on_errorness (a b : JVal)
    (ha : isErrorObj a = true) (hb : isErrorObj b = false) :
    Result a = JResult.err a ∧
    Result b = JResult.ok b ∧
    Result JVal.jsNull = JResult.ok JVal.jsNull ∧
    Result JVal.undef = JResult.ok JVal.undef ∧
    Maybe JVal.jsNull = JMaybe.nothing ∧
    Maybe JVal.undef = JMaybe.nothing := by
  refine ⟨?_, ?_, rfl, rfl, rfl, rfl⟩
  · simp [Result, ha]
  · simp [Result, hb]

/-- Witness for C6 at a TypeError input (a subclass of Error) and a null
input. -/
theorem result_fromValue_routes_on_errorness_witness :
    Result (JVal.error true "t") = JResult.err (JVal.error true "t") ∧
    Result JVal.jsNull = JResult.ok JVal.jsNull ∧
    Result JVal.jsNull = JResult.ok JVal.jsNull ∧
    Result JVal.undef = JResult.ok JVal.undef ∧
    Maybe JVal.jsNull = JMaybe.nothing ∧
    Maybe JVal.undef = JMaybe.nothing :=
  result_fromValue_routes_on_errorness (JVal.error true "t") JVal.jsNull
    rfl rfl

/-- C7: optional construction contract: fromValue collapses undefined and
null to the absent variant; the direct constructor Just throws the
InvalidArgument TypeError on undefined and on null, and wraps any other
value exactly. -/
theorem maybe_construction_contract (a : JVal)
    (ha : ¬(a = JVal.undef ∨ a = JVal.jsNull)) :
    Maybe JVal.undef = JMaybe.nothing ∧
    Maybe JVal.jsNull = JMaybe.nothing ∧
    Just JVal.undef = Except.error (JVal.error true
      "invalid argument provided to Just: undefined and null values are not allowed") ∧
    Just JVal.jsNull = Except.error (JVal.error true
      "invalid argument provided to Just: undefined and null values are not allowed") ∧
    Just a = Except.ok (JMaybe.just a) := by
  refine ⟨rfl, rfl, rfl, rfl, ?_⟩
  simp [Just, ha]

/-- Witness for C7 at a = 7. -/
theorem maybe_construction_contract_witness :
    Maybe JVal.undef = JMaybe.nothing ∧
    Maybe JVal.jsNull = JMaybe.nothing ∧
    Just JVal.undef = Except.error (JVal.error true
      "invalid argument provided to Just: undefined and null values are not allowed") ∧
    Just JVal.jsNull = Except.error (JVal.error true
      "invalid argument provided to Just: undefined and null values are not allowed") ∧
    Just (JVal.num 7) = Except.ok (JMaybe.just (JVal.num 7)) :=
  maybe_construction_contract (JVal.num 7) (by decide)

/-- C8: both selector wrappers are idempotent on container arguments: a
second argument recognized as a container is used as-is, so the merged
object's container component — its variant tag and payload included — is
the input container itself. -/
theorem selector_idempotent_on_containers {State S : Type}
    (F : State → JMaybe → S) (G : State → JResult → S) (s : State)
    (m : JMaybe) (rr : JResult) :
    MaybeSelector F s (MaybeArg.cont m) = Except.ok ⟨m, F s m⟩ ∧
    ResultSelector G s (ResultArg.cont rr) = ⟨rr, G s rr⟩ ∧
    (ResultSelector G s (ResultArg.cont rr)).container.isOk = rr.isOk ∧
    (ResultSelector G s (ResultArg.cont rr)).container.value = rr.value :=
  ⟨rfl, rfl, rfl, rfl⟩

/-- C9: flatMap left identity: on a constructed present(x), flatMap
returns f(x) itself, with no re-wrapping or re-validation. -/
theorem flatMap_left_identity (x : JVal) (m : JMaybe) (f : JVal → JMaybe)
    (hm : Just x = Except.ok m) :
    m.flatMap f = f x := by
  unfold Just at hm
  split at hm
  · cases hm
  · cases hm
    rfl

/-- Witness for C9 at x = "a" and a constant callback. -/
theorem flatMap_left_identity_witness :
    JMaybe.flatMap (JMaybe.just (JVal.str "a")) (fun _ => JMaybe.nothing)
      = JMaybe.nothing :=
  flatMap_left_identity (JVal.str "a") (JMaybe.just (JVal.str "a"))
    (fun _ => JMaybe.nothing) rfl

/-- C10: the fluent merge is one level deep: every container operation of
the merged object is the resolved container's operation (the spread copied
the container's closures), and its result is a plain container — its type
is JResult/JMaybe, so it carries none of the factory's extra accessor
keys, which live only on the top-level merged object. -/
theorem merged_ops_project_to_container {State S : Type}
    (F : State → JResult → S) (G : State → JMaybe → S) (s : State)
    (r : ResultArg) (mr : MaybeArg) (M : MergedMaybe S) (c : JMaybe)
    (f : JVal → JVal) (k : JVal → JResult) (km : JVal → JMaybe)
    (j1 j2 : JVal → JVal)
    (hM : MaybeSelector G s mr = Except.ok M)
    (hc : resolveMaybeArg mr = Except.ok c) :
    (ResultSelector F s r).map f = (resolveResultArg r).map f ∧
    (ResultSelector F s r).flatMap k = (resolveResultArg r).flatMap k ∧
    (ResultSelector F s r).get = (resolveResultArg r).get ∧
    (ResultSelector F s r).join j1 j2 = (resolveResultArg r).join j1 j2 ∧
    M.container = c ∧
    M.map f = c.map f ∧
    M.flatMap km = c.flatMap km := by
  unfold MaybeSelector at hM
  rw [hc] at hM
  cases hM
  exact ⟨rfl, rfl, rfl, rfl, rfl, rfl, rfl⟩

/-- Witness for C10 with unit state, a trivial factory, a raw Result
argument and the absent container as the Maybe argument. -/
theorem merged_ops_project_to_container_witness :
    (ResultSelector (fun (_ : Unit) (_ : JResult) => ()) ()
        (ResultArg.raw (JVal.num 0))).map (fun v => v)
      = (resolveResultArg (ResultArg.raw (JVal.num 0))).map (fun v => v) ∧
    (ResultSelector (fun (_ : Unit) (_ : JResult) => ()) ()
        (ResultArg.raw (JVal.num 0))).flatMap (fun _ => JResult.ok JVal.undef)
      = (resolveResultArg (ResultArg.raw (JVal.num 0))).flatMap
          (fun _ => JResult.ok JVal.undef) ∧
    (ResultSelector (fun (_ : Unit) (_ : JResult) => ()) ()
        (ResultArg.raw (JVal.num 0))).get
      = (resolveResultArg (ResultArg.raw (JVal.num 0))).get ∧
    (ResultSelector (fun (_ : Unit) (_ : JResult) => ()) ()
        (ResultArg.raw (JVal.num 0))).join (fun v => v) (fun v => v)
      = (resolveResultArg (ResultArg.raw (JVal.num 0))).join
          (fun v => v) (fun v => v) ∧
    (MergedMaybe.mk JMaybe.nothing ()).container = JMaybe.nothing ∧
    (MergedMaybe.mk JMaybe.nothing ()).map (fun v => v)
      = JMaybe.map JMaybe.nothing (fun v => v) ∧
    (MergedMaybe.mk JMaybe.nothing ()).flatMap (fun _ => JMaybe.nothing)
      = JMaybe.flatMap JMaybe.nothing (fun _ => JMaybe.nothing) :=
  merged_ops_project_to_container
    (fun (_ : Unit) (_ : JResult) => ()) (fun (_ : Unit) (_ : JMaybe) => ())
    () (ResultArg.raw (JVal.num 0)) (MaybeArg.cont JMaybe.nothing)
    (MergedMaybe.mk JMaybe.nothing ()) JMaybe.nothing
    (fun v => v) (fun _ => JResult.ok JVal.undef) (fun _ => JMaybe.nothing)
    (fun v => v) (fun v => v) rfl rfl

end MonadSelector
